import Mathlib

/-!
Shallow embedding of the CLIRDEC-PRESENCE attendance engine.

The definitions below translate the Python backend's data model and the
scan-processing path into Lean:

* `models.py` — `Student`, `Schedule`, `ClassSession`, `AttendanceRecord`
  (the columns the engine reads or writes).
* `services/attendance_service_old.py` — `checkin_student`,
  `checkout_student`, including the session-resolution block they share
  (`select(ClassSession).where(status == "active")` + `scalar_one_or_none`).
* `services/rfid_service.py` — `RFIDService.simulate_tap`, the device-facing
  entry point with its try/except toggle between check-in and check-out.
* `esp32_wifi_attendance_micropython.py` — `CLIRDECAttendance.check_rfid`,
  the on-device scan deduplication.

Timestamps are modelled as `Nat` (minutes for wall-clock datetimes) and
`Int` (milliseconds for the ESP32 tick counter).  Database rows live in
lists; SQLAlchemy's `scalar_one_or_none` is modelled exactly, including the
`MultipleResultsFound` exception it raises on a non-unique result.
-/

namespace Presence

/-- The `AttendanceStatus` enum from `models.py`. -/
inductive AttendanceStatus where
  | present
  | absent
  | late
  deriving DecidableEq, Repr

/-- The `Student` row (`models.py`): the columns the engine reads. -/
structure Student where
  id : Nat
  rfid_card_id : String
  deriving DecidableEq, Repr

/-- The `Schedule` row (`models.py`): classroom assignment, day of week and the
start/end time-of-day window (minutes since midnight). -/
structure Schedule where
  id : Nat
  classroom_id : Nat
  day_of_week : Nat
  start_time : Nat
  end_time : Nat
  deriving DecidableEq, Repr

/-- The `ClassSession` row (`models.py`): a dated occurrence of a `Schedule`;
`status` is a plain string column (`"scheduled"`, `"active"`, ...). -/
structure ClassSession where
  id : Nat
  schedule_id : Nat
  status : String
  deriving DecidableEq, Repr

/-- The `AttendanceRecord` row (`models.py`): keyed by
(`student_id`, `class_session_id`); `is_late` defaults to `false` and
`minutes_late` to `0` at the column level. -/
structure AttendanceRecord where
  student_id : Nat
  class_session_id : Nat
  checkin_time : Option Nat
  checkout_time : Option Nat
  status : AttendanceStatus
  is_late : Bool
  minutes_late : Nat
  computer_id : Option Nat
  deriving DecidableEq, Repr

/-- The tables the scan path touches.  `students`, `schedules` and
`sessions` are read-only to the engine; `records` is owned by it. -/
structure DB where
  students : List Student
  schedules : List Schedule
  sessions : List ClassSession
  records : List AttendanceRecord
  deriving DecidableEq, Repr

/-- The `AttendanceCheckin` request schema (`schemas.py`). -/
structure AttendanceCheckin where
  rfid_card_id : String
  class_session_id : Option Nat
  computer_id : Option Nat
  deriving DecidableEq, Repr

/-- The `AttendanceCheckout` request schema (`schemas.py`). -/
structure AttendanceCheckout where
  rfid_card_id : String
  class_session_id : Option Nat
  deriving DecidableEq, Repr

/-- The `RFIDSimulation` request schema (`schemas.py`): `proximity_detected`
defaults to `true`, `tap_strength` to `8`. -/
structure RFIDSimulation where
  rfid_card_id : String
  proximity_detected : Bool
  tap_strength : Nat
  deriving DecidableEq, Repr

/-- The exceptions the service layer can raise: `ValueError(msg)` from the
attendance service, and SQLAlchemy's `MultipleResultsFound` from
`scalar_one_or_none` on a non-unique result. -/
inductive PyError where
  | valueError (msg : String)
  | multipleResultsFound
  deriving DecidableEq, Repr

/-- Rendering `str(e)` for the exceptions above (SQLAlchemy's message for
`MultipleResultsFound`). -/
def pyErrorStr : PyError → String
  | .valueError msg => msg
  | .multipleResultsFound =>
      "Multiple rows were found when exactly one or none was required"

/-- SQLAlchemy `Result.scalar_one_or_none()`: `none` on an empty result,
the row on a singleton, and `MultipleResultsFound` otherwise. -/
def scalar_one_or_none {α : Type} : List α → Except PyError (Option α)
  | [] => .ok none
  | [a] => .ok (some a)
  | _ :: _ :: _ => .error .multipleResultsFound

/-- Query `AttendanceService.get_student_by_rfid`: first student row whose
`rfid_card_id` matches. -/
def get_student_by_rfid (db : DB) (rfid : String) : Option Student :=
  db.students.find? (fun s => s.rfid_card_id == rfid)

/-- The `select(ClassSession).where(ClassSession.status == "active")`
query shared by `checkin_student` and `checkout_student`. -/
def activeSessions (db : DB) : List ClassSession :=
  db.sessions.filter (fun s => s.status == "active")

/-- The `select(AttendanceRecord).where(and_(student_id == .., class_session_id == ..))`
query shared by `checkin_student` and `checkout_student`. -/
def recordsFor (db : DB) (sid cid : Nat) : List AttendanceRecord :=
  db.records.filter (fun r => r.student_id == sid && r.class_session_id == cid)

/-- Session resolution (`attendance_service_old.py` lines 99-109 and
153-163, identical in both functions): the explicit `class_session_id` if
supplied, else the unique `ClassSession` with `status == "active"`;
`ValueError("No active class session found")` when there is none. -/
def resolveSessionId (db : DB) (explicit : Option Nat) : Except PyError Nat :=
  match explicit with
  | some sid => .ok sid
  | none =>
    match scalar_one_or_none (activeSessions db) with
    | .error e => .error e
    | .ok none => .error (.valueError "No active class session found")
    | .ok (some session) => .ok session.id

/-- ORM mutation `record.checkin_time = now; record.computer_id = ..` on the
row selected by the (student, session) key. -/
def setCheckin (l : List AttendanceRecord) (sid cid : Nat) (now : Nat)
    (comp : Option Nat) : List AttendanceRecord :=
  l.map (fun r =>
    if r.student_id == sid && r.class_session_id == cid then
      { r with checkin_time := some now, computer_id := comp }
    else r)

/-- ORM mutation `record.checkout_time = now` on the row selected by the
(student, session) key. -/
def setCheckout (l : List AttendanceRecord) (sid cid : Nat) (now : Nat) :
    List AttendanceRecord :=
  l.map (fun r =>
    if r.student_id == sid && r.class_session_id == cid then
      { r with checkout_time := some now }
    else r)

/-- Function `AttendanceService.checkin_student` (`attendance_service_old.py`
lines 92-144).  The lateness computation is absent in the source (only a
`TODO` comment), so a fresh record keeps the column defaults
`is_late = false`, `minutes_late = 0` and the constructor's
`status = PRESENT`. -/
def checkin_student (db : DB) (d : AttendanceCheckin) (now : Nat) :
    Except PyError (AttendanceRecord × DB) :=
  match get_student_by_rfid db d.rfid_card_id with
  | none => .error (.valueError "Student not found with this RFID card")
  | some student =>
    match resolveSessionId db d.class_session_id with
    | .error e => .error e
    | .ok session_id =>
      match scalar_one_or_none (recordsFor db student.id session_id) with
      | .error e => .error e
      | .ok (some existing) =>
        if existing.checkin_time.isSome then
          .error (.valueError "Student already checked in")
        else
          .ok ({ existing with checkin_time := some now, computer_id := d.computer_id },
               { db with records := setCheckin db.records student.id session_id now d.computer_id })
      | .ok none =>
        let newRecord : AttendanceRecord :=
          { student_id := student.id
            class_session_id := session_id
            checkin_time := some now
            checkout_time := none
            status := .present
            is_late := false
            minutes_late := 0
            computer_id := d.computer_id }
        .ok (newRecord, { db with records := db.records ++ [newRecord] })

/-- Function `AttendanceService.checkout_student` (`attendance_service_old.py`
lines 146-182).  Note: the source sets `checkout_time` on whatever record
the key query returns, with no check that `checkout_time` is still unset. -/
def checkout_student (db : DB) (d : AttendanceCheckout) (now : Nat) :
    Except PyError (AttendanceRecord × DB) :=
  match get_student_by_rfid db d.rfid_card_id with
  | none => .error (.valueError "Student not found with this RFID card")
  | some student =>
    match resolveSessionId db d.class_session_id with
    | .error e => .error e
    | .ok session_id =>
      match scalar_one_or_none (recordsFor db student.id session_id) with
      | .error e => .error e
      | .ok none => .error (.valueError "No check-in record found for this student")
      | .ok (some record) =>
        .ok ({ record with checkout_time := some now },
             { db with records := setCheckout db.records student.id session_id now })

/-- Whether `pat` is a prefix of `s` (character lists). -/
def prefixAt : List Char → List Char → Bool
  | [], _ => true
  | _ :: _, [] => false
  | c :: cs, d :: ds => c == d && prefixAt cs ds

/-- Whether `pat` occurs somewhere inside `s` (character lists). -/
def hasSub (pat : List Char) : List Char → Bool
  | [] => pat.isEmpty
  | d :: ds => prefixAt pat (d :: ds) || hasSub pat ds

/-- Python's `pat in s` substring test on strings. -/
def containsSub (s pat : String) : Bool :=
  hasSub pat.toList s.toList

/-- The structured result dictionary `simulate_tap` returns on every path:
a success flag, a message and a timestamp, plus the optional keys present
only on success. -/
structure TapResult where
  success : Bool
  message : String
  timestamp : Nat
  student_id : Option Nat
  tap_strength : Option Nat
  deriving DecidableEq, Repr

/-- Entry point `RFIDService.simulate_tap` (`rfid_service.py` lines 17-82): proximity
and tap-strength gates, then check-in; a `ValueError` whose message
contains `"already checked in"` is reinterpreted as a check-out; inner
`ValueError`s from the check-out are surfaced as failure messages; any
other exception is caught by the outer handler and wrapped as
`"RFID processing error: ..."`.  On success the reported timestamp is the
record's just-written checkin/checkout time, i.e. `now`. -/
def simulate_tap (db : DB) (rfid_data : RFIDSimulation) (now : Nat) :
    TapResult × DB :=
  if !rfid_data.proximity_detected then
    ({ success := false, message := "Proximity sensor did not detect presence",
       timestamp := now, student_id := none, tap_strength := none }, db)
  else if rfid_data.tap_strength < 5 then
    ({ success := false, message := "Tap strength too weak, please tap firmly",
       timestamp := now, student_id := none, tap_strength := none }, db)
  else
    match checkin_student db ⟨rfid_data.rfid_card_id, none, none⟩ now with
    | .ok (record, db') =>
      ({ success := true, message := "Student checked in successfully",
         timestamp := record.checkin_time.getD now,
         student_id := some record.student_id,
         tap_strength := some rfid_data.tap_strength }, db')
    | .error (.valueError msg) =>
      if containsSub msg "already checked in" then
        match checkout_student db ⟨rfid_data.rfid_card_id, none⟩ now with
        | .ok (record, db') =>
          ({ success := true, message := "Student checked out successfully",
             timestamp := record.checkout_time.getD now,
             student_id := some record.student_id,
             tap_strength := some rfid_data.tap_strength }, db')
        | .error (.valueError m2) =>
          ({ success := false, message := m2, timestamp := now,
             student_id := none, tap_strength := none }, db)
        | .error .multipleResultsFound =>
          ({ success := false,
             message := "RFID processing error: "
               ++ pyErrorStr PyError.multipleResultsFound,
             timestamp := now, student_id := none, tap_strength := none }, db)
      else
        ({ success := false, message := msg, timestamp := now,
           student_id := none, tap_strength := none }, db)
    | .error .multipleResultsFound =>
      ({ success := false,
         message := "RFID processing error: " ++ pyErrorStr PyError.multipleResultsFound,
         timestamp := now, student_id := none, tap_strength := none }, db)

/-- On-device deduplication state (`esp32_wifi_attendance_micropython.py`):
`last_uid` starts `""`, `last_rfid_time` starts `0`. -/
structure RFIDReaderState where
  last_uid : String
  last_rfid_time : Int
  deriving DecidableEq, Repr

/-- Function `CLIRDECAttendance.check_rfid` (`esp32_wifi_attendance_micropython.py`
lines 282-312), with `card = none` standing for "no card present or read
failed" and `now` the `ticks_ms` value (`ticks_diff` modelled as `Int`
subtraction).  Any read within 2000 ms of the last accepted one returns
`false` before the reader is even polled; a read of the same UID as the
last accepted one within 5000 ms is also dropped; otherwise the state is
updated and the scan is sent (`true`). -/
def check_rfid (st : RFIDReaderState) (now : Int) (card : Option String) :
    Bool × RFIDReaderState :=
  if now - st.last_rfid_time < 2000 then (false, st)
  else
    match card with
    | none => (false, st)
    | some uid =>
      if uid == st.last_uid && now - st.last_rfid_time < 5000 then (false, st)
      else (true, { last_uid := uid, last_rfid_time := now })

/-! ### Helper lemmas about the queries and mutations -/

theorem scalar_one_or_none_eq_none {α : Type} {l : List α} :
    scalar_one_or_none l = .ok none ↔ l = [] := by
  cases l with
  | nil => simp [scalar_one_or_none]
  | cons a l =>
    cases l with
    | nil => simp [scalar_one_or_none]
    | cons b l => simp [scalar_one_or_none]

theorem scalar_one_or_none_eq_some {α : Type} {l : List α} {a : α} :
    scalar_one_or_none l = .ok (some a) ↔ l = [a] := by
  cases l with
  | nil => simp [scalar_one_or_none]
  | cons b l =>
    cases l with
    | nil => simp [scalar_one_or_none]
    | cons c l => simp [scalar_one_or_none]

/-- Fact: `filter` commutes with a `map` whose function leaves the filtered
predicate unchanged on every element. -/
theorem filter_map_of_pred_inv {α : Type} (p : α → Bool) (f : α → α)
    (hpf : ∀ a, p (f a) = p a) (l : List α) :
    (l.map f).filter p = (l.filter p).map f := by
  induction l with
  | nil => rfl
  | cons a l ih =>
    simp only [List.map_cons, List.filter_cons, hpf]
    cases h : p a
    · simp [h, ih]
    · simp [h, ih]

theorem recordsFor_setCheckout (db : DB) (sid cid now : Nat) :
    recordsFor { db with records := setCheckout db.records sid cid now } sid cid
      = (recordsFor db sid cid).map
          (fun r => if r.student_id == sid && r.class_session_id == cid then
              { r with checkout_time := some now } else r) := by
  show (db.records.map _).filter _ = (db.records.filter _).map _
  apply filter_map_of_pred_inv
  intro r
  by_cases h : (r.student_id == sid && r.class_session_id == cid) = true
  · rw [if_pos h]
  · rw [if_neg h]

theorem recordsFor_setCheckin (db : DB) (sid cid now : Nat) (comp : Option Nat) :
    recordsFor { db with records := setCheckin db.records sid cid now comp } sid cid
      = (recordsFor db sid cid).map
          (fun r => if r.student_id == sid && r.class_session_id == cid then
              { r with checkin_time := some now, computer_id := comp } else r) := by
  show (db.records.map _).filter _ = (db.records.filter _).map _
  apply filter_map_of_pred_inv
  intro r
  by_cases h : (r.student_id == sid && r.class_session_id == cid) = true
  · rw [if_pos h]
  · rw [if_neg h]

theorem recordsFor_setCheckout_singleton (db : DB) (sid cid now : Nat)
    (r0 : AttendanceRecord) (hrec : recordsFor db sid cid = [r0]) :
    recordsFor { db with records := setCheckout db.records sid cid now } sid cid
      = [{ r0 with checkout_time := some now }] := by
  have hmem : r0 ∈ recordsFor db sid cid := by rw [hrec]; exact List.mem_singleton.mpr rfl
  have hkey : (r0.student_id == sid && r0.class_session_id == cid) = true :=
    (List.mem_filter.mp hmem).2
  rw [recordsFor_setCheckout, hrec]
  simp only [List.map_cons, List.map_nil]
  rw [if_pos hkey]

theorem recordsFor_setCheckin_singleton (db : DB) (sid cid now : Nat)
    (comp : Option Nat) (r0 : AttendanceRecord)
    (hrec : recordsFor db sid cid = [r0]) :
    recordsFor { db with records := setCheckin db.records sid cid now comp } sid cid
      = [{ r0 with checkin_time := some now, computer_id := comp }] := by
  have hmem : r0 ∈ recordsFor db sid cid := by rw [hrec]; exact List.mem_singleton.mpr rfl
  have hkey : (r0.student_id == sid && r0.class_session_id == cid) = true :=
    (List.mem_filter.mp hmem).2
  rw [recordsFor_setCheckin, hrec]
  simp only [List.map_cons, List.map_nil]
  rw [if_pos hkey]

/-- The only failures session resolution produces. -/
theorem resolveSessionId_error_cases {db : DB} {x : Option Nat} {e : PyError}
    (h : resolveSessionId db x = .error e) :
    e = .valueError "No active class session found" ∨ e = .multipleResultsFound := by
  unfold resolveSessionId at h
  cases x with
  | some sid => simp at h
  | none =>
    cases hq : scalar_one_or_none (activeSessions db) with
    | error e2 =>
      rw [hq] at h
      cases hq2 : activeSessions db with
      | nil => rw [hq2] at hq; simp [scalar_one_or_none] at hq
      | cons a l =>
        cases l with
        | nil => rw [hq2] at hq; simp [scalar_one_or_none] at hq
        | cons b l2 =>
          rw [hq2] at hq
          simp [scalar_one_or_none] at hq
          simp at h
          right
          rw [← h]
          exact hq.symm
    | ok o =>
      rw [hq] at h
      cases o with
      | none => simp at h; left; exact h.symm
      | some s => simp at h

/-- The only failures `checkin_student` produces. -/
theorem checkin_student_error_cases {db : DB} {d : AttendanceCheckin} {now : Nat}
    {e : PyError} (h : checkin_student db d now = .error e) :
    e = .valueError "Student not found with this RFID card" ∨
    e = .valueError "No active class session found" ∨
    e = .valueError "Student already checked in" ∨
    e = .multipleResultsFound := by
  unfold checkin_student at h
  cases hstu : get_student_by_rfid db d.rfid_card_id with
  | none => rw [hstu] at h; simp at h; left; exact h.symm
  | some student =>
    rw [hstu] at h
    simp only at h
    cases hres : resolveSessionId db d.class_session_id with
    | error e2 =>
      rw [hres] at h; simp at h
      rcases resolveSessionId_error_cases hres with h2 | h2
      · right; left; rw [← h]; exact h2
      · right; right; right; rw [← h]; exact h2
    | ok session_id =>
      rw [hres] at h
      simp only at h
      cases hq : scalar_one_or_none (recordsFor db student.id session_id) with
      | error e2 =>
        rw [hq] at h; simp at h
        cases hl : recordsFor db student.id session_id with
        | nil => rw [hl] at hq; simp [scalar_one_or_none] at hq
        | cons a l =>
          cases l with
          | nil => rw [hl] at hq; simp [scalar_one_or_none] at hq
          | cons b l2 =>
            rw [hl] at hq; simp [scalar_one_or_none] at hq
            right; right; right; rw [← h]; exact hq.symm
      | ok o =>
        rw [hq] at h
        cases o with
        | none => simp at h
        | some existing =>
          simp only at h
          by_cases hin : existing.checkin_time.isSome = true
          · rw [if_pos hin] at h; simp at h; right; right; left; exact h.symm
          · rw [if_neg hin] at h; simp at h

/-- The only failures `checkout_student` produces. -/
theorem checkout_student_error_cases {db : DB} {d : AttendanceCheckout} {now : Nat}
    {e : PyError} (h : checkout_student db d now = .error e) :
    e = .valueError "Student not found with this RFID card" ∨
    e = .valueError "No active class session found" ∨
    e = .valueError "No check-in record found for this student" ∨
    e = .multipleResultsFound := by
  unfold checkout_student at h
  cases hstu : get_student_by_rfid db d.rfid_card_id with
  | none => rw [hstu] at h; simp at h; left; exact h.symm
  | some student =>
    rw [hstu] at h
    simp only at h
    cases hres : resolveSessionId db d.class_session_id with
    | error e2 =>
      rw [hres] at h; simp at h
      rcases resolveSessionId_error_cases hres with h2 | h2
      · right; left; rw [← h]; exact h2
      · right; right; right; rw [← h]; exact h2
    | ok session_id =>
      rw [hres] at h
      simp only at h
      cases hq : scalar_one_or_none (recordsFor db student.id session_id) with
      | error e2 =>
        rw [hq] at h; simp at h
        cases hl : recordsFor db student.id session_id with
        | nil => rw [hl] at hq; simp [scalar_one_or_none] at hq
        | cons a l =>
          cases l with
          | nil => rw [hl] at hq; simp [scalar_one_or_none] at hq
          | cons b l2 =>
            rw [hl] at hq; simp [scalar_one_or_none] at hq
            right; right; right; rw [← h]; exact hq.symm
      | ok o =>
        rw [hq] at h
        cases o with
        | none => simp at h; right; right; left; exact h.symm
        | some record => simp at h

/-- Computation of `checkin_student` on a fresh (student, session) pair:
creates the record. -/
theorem checkin_student_fresh (db : DB) (tag : String) (stu : Student)
    (sess : ClassSession) (now : Nat) (comp : Option Nat)
    (hfind : get_student_by_rfid db tag = some stu)
    (hact : activeSessions db = [sess])
    (hrec : recordsFor db stu.id sess.id = []) :
    checkin_student db ⟨tag, none, comp⟩ now =
      .ok (⟨stu.id, sess.id, some now, none, .present, false, 0, comp⟩,
           { db with records :=
              db.records ++ [⟨stu.id, sess.id, some now, none, .present, false, 0, comp⟩] }) := by
  simp [checkin_student, hfind, resolveSessionId, hact, hrec, scalar_one_or_none]

/-- Computation of `checkin_student` when the pair's record already has a
check-in time: `ValueError("Student already checked in")`. -/
theorem checkin_student_already (db : DB) (tag : String) (stu : Student)
    (sess : ClassSession) (r0 : AttendanceRecord) (now t0 : Nat) (comp : Option Nat)
    (hfind : get_student_by_rfid db tag = some stu)
    (hact : activeSessions db = [sess])
    (hrec : recordsFor db stu.id sess.id = [r0])
    (hin : r0.checkin_time = some t0) :
    checkin_student db ⟨tag, none, comp⟩ now =
      .error (.valueError "Student already checked in") := by
  simp [checkin_student, hfind, resolveSessionId, hact, hrec, scalar_one_or_none, hin]

/-- Computation of `checkout_student` when the pair's record exists: sets
`checkout_time`, touching nothing else. -/
theorem checkout_student_found (db : DB) (tag : String) (stu : Student)
    (sess : ClassSession) (r0 : AttendanceRecord) (now : Nat)
    (hfind : get_student_by_rfid db tag = some stu)
    (hact : activeSessions db = [sess])
    (hrec : recordsFor db stu.id sess.id = [r0]) :
    checkout_student db ⟨tag, none⟩ now =
      .ok ({ r0 with checkout_time := some now },
           { db with records := setCheckout db.records stu.id sess.id now }) := by
  simp [checkout_student, hfind, resolveSessionId, hact, hrec, scalar_one_or_none]

/-- Inversion of a successful `checkin_student`: the read-only tables are
untouched, the returned record carries `checkin_time = now`, and the record
table either gained a fresh record for a previously empty key or had the
key's row's check-in fields written in place. -/
theorem checkin_student_ok_inv {db : DB} {d : AttendanceCheckin} {now : Nat}
    {r : AttendanceRecord} {db' : DB}
    (h : checkin_student db d now = .ok (r, db')) :
    db'.students = db.students ∧ db'.schedules = db.schedules ∧
    db'.sessions = db.sessions ∧ r.checkin_time = some now ∧
    ∃ sid cid,
      (recordsFor db sid cid = [] ∧ r.student_id = sid ∧ r.class_session_id = cid ∧
        db'.records = db.records ++ [r]) ∨
      db'.records = setCheckin db.records sid cid now d.computer_id := by
  unfold checkin_student at h
  cases hstu : get_student_by_rfid db d.rfid_card_id with
  | none => rw [hstu] at h; simp at h
  | some student =>
    rw [hstu] at h
    simp only at h
    cases hres : resolveSessionId db d.class_session_id with
    | error e2 => rw [hres] at h; simp at h
    | ok session_id =>
      rw [hres] at h
      simp only at h
      cases hq : scalar_one_or_none (recordsFor db student.id session_id) with
      | error e2 => rw [hq] at h; simp at h
      | ok o =>
        rw [hq] at h
        cases o with
        | some existing =>
          simp only at h
          by_cases hin : existing.checkin_time.isSome = true
          · rw [if_pos hin] at h; simp at h
          · rw [if_neg hin] at h
            simp only [Except.ok.injEq, Prod.mk.injEq] at h
            obtain ⟨hr, hdb⟩ := h
            refine ⟨by rw [← hdb], by rw [← hdb], by rw [← hdb], by rw [← hr], ?_⟩
            exact ⟨student.id, session_id, Or.inr (by rw [← hdb])⟩
        | none =>
          simp only [Except.ok.injEq, Prod.mk.injEq] at h
          obtain ⟨hr, hdb⟩ := h
          refine ⟨by rw [← hdb], by rw [← hdb], by rw [← hdb], by rw [← hr], ?_⟩
          refine ⟨student.id, session_id, Or.inl ⟨?_, by rw [← hr], by rw [← hr], ?_⟩⟩
          · exact scalar_one_or_none_eq_none.mp hq
          · rw [← hdb, ← hr]

/-- Inversion of a successful `checkout_student`: the read-only tables are
untouched, the returned record carries `checkout_time = now`, and the
record table had one key's row's `checkout_time` written in place. -/
theorem checkout_student_ok_inv {db : DB} {d : AttendanceCheckout} {now : Nat}
    {r : AttendanceRecord} {db' : DB}
    (h : checkout_student db d now = .ok (r, db')) :
    db'.students = db.students ∧ db'.schedules = db.schedules ∧
    db'.sessions = db.sessions ∧ r.checkout_time = some now ∧
    ∃ sid cid, db'.records = setCheckout db.records sid cid now := by
  unfold checkout_student at h
  cases hstu : get_student_by_rfid db d.rfid_card_id with
  | none => rw [hstu] at h; simp at h
  | some student =>
    rw [hstu] at h
    simp only at h
    cases hres : resolveSessionId db d.class_session_id with
    | error e2 => rw [hres] at h; simp at h
    | ok session_id =>
      rw [hres] at h
      simp only at h
      cases hq : scalar_one_or_none (recordsFor db student.id session_id) with
      | error e2 => rw [hq] at h; simp at h
      | ok o =>
        rw [hq] at h
        cases o with
        | none => simp at h
        | some record =>
          simp only [Except.ok.injEq, Prod.mk.injEq] at h
          obtain ⟨hr, hdb⟩ := h
          refine ⟨by rw [← hdb], by rw [← hdb], by rw [← hdb], by rw [← hr], ?_⟩
          exact ⟨student.id, session_id, by rw [← hdb]⟩

/-- Fact: `simulate_tap` changes the database only through a successful
`checkin_student` or `checkout_student` call. -/
theorem simulate_tap_state_inv (db : DB) (d : RFIDSimulation) (now : Nat) :
    (simulate_tap db d now).2 = db ∨
    (∃ r, checkin_student db ⟨d.rfid_card_id, none, none⟩ now
        = .ok (r, (simulate_tap db d now).2)) ∨
    (∃ r, checkout_student db ⟨d.rfid_card_id, none⟩ now
        = .ok (r, (simulate_tap db d now).2)) := by
  unfold simulate_tap
  split
  · left; rfl
  split
  · left; rfl
  split
  · next record db2 heq => right; left; exact ⟨record, heq⟩
  · next msg heq =>
    split
    · split
      · next record db2 heq2 => right; right; exact ⟨record, heq2⟩
      · left; rfl
      · left; rfl
    · left; rfl
  · left; rfl

/-! ### The engine's operations and the record-table invariant -/

/-- One engine operation of the scan path: a direct check-in, a direct
check-out, or a device scan routed through `simulate_tap`. -/
inductive Op where
  | checkin (d : AttendanceCheckin) (now : Nat)
  | checkout (d : AttendanceCheckout) (now : Nat)
  | tap (d : RFIDSimulation) (now : Nat)
  deriving DecidableEq, Repr

/-- Apply one operation; a raised exception rolls the transaction back, so
an error leaves the database unchanged. -/
def applyOp (db : DB) : Op → DB
  | .checkin d now =>
    match checkin_student db d now with
    | .ok (_, db') => db'
    | .error _ => db
  | .checkout d now =>
    match checkout_student db d now with
    | .ok (_, db') => db'
    | .error _ => db
  | .tap d now => (simulate_tap db d now).2

/-- Run a sequence of engine operations. -/
def run (db : DB) : List Op → DB
  | [] => db
  | op :: ops => run (applyOp db op) ops

/-- The inductive record-table invariant: at most one row per
(student, session) key, and every row has its check-in time set. -/
def RecInv (db : DB) : Prop :=
  (∀ sid cid, (recordsFor db sid cid).length ≤ 1) ∧
  (∀ r ∈ db.records, r.checkin_time.isSome = true)

theorem length_filter_key_map (l : List AttendanceRecord)
    (f : AttendanceRecord → AttendanceRecord)
    (hf : ∀ r, (f r).student_id = r.student_id ∧ (f r).class_session_id = r.class_session_id)
    (sid cid : Nat) :
    ((l.map f).filter (fun r => r.student_id == sid && r.class_session_id == cid)).length
      = (l.filter (fun r => r.student_id == sid && r.class_session_id == cid)).length := by
  rw [filter_map_of_pred_inv]
  · rw [List.length_map]
  · intro a; simp [(hf a).1, (hf a).2]

theorem setCheckin_key_inv (sid cid now : Nat) (comp : Option Nat)
    (r : AttendanceRecord) :
    ((if r.student_id == sid && r.class_session_id == cid then
        { r with checkin_time := some now, computer_id := comp } else r).student_id
      = r.student_id) ∧
    ((if r.student_id == sid && r.class_session_id == cid then
        { r with checkin_time := some now, computer_id := comp } else r).class_session_id
      = r.class_session_id) := by
  by_cases h : (r.student_id == sid && r.class_session_id == cid) = true
  · rw [if_pos h]; exact ⟨rfl, rfl⟩
  · rw [if_neg h]; exact ⟨rfl, rfl⟩

theorem setCheckout_key_inv (sid cid now : Nat) (r : AttendanceRecord) :
    ((if r.student_id == sid && r.class_session_id == cid then
        { r with checkout_time := some now } else r).student_id = r.student_id) ∧
    ((if r.student_id == sid && r.class_session_id == cid then
        { r with checkout_time := some now } else r).class_session_id
      = r.class_session_id) := by
  by_cases h : (r.student_id == sid && r.class_session_id == cid) = true
  · rw [if_pos h]; exact ⟨rfl, rfl⟩
  · rw [if_neg h]; exact ⟨rfl, rfl⟩

/-- A successful `checkin_student` preserves the record-table invariant. -/
theorem recInv_checkin_ok {db : DB} {d : AttendanceCheckin} {now : Nat}
    {r : AttendanceRecord} {db' : DB} (hinv : RecInv db)
    (h : checkin_student db d now = .ok (r, db')) : RecInv db' := by
  obtain ⟨-, -, -, hrnow, sid, cid, hbranch⟩ := checkin_student_ok_inv h
  rcases hbranch with ⟨hfresh, hsid, hcid, hrecs⟩ | hrecs
  · constructor
    · intro sid' cid'
      show ((db'.records).filter _).length ≤ 1
      rw [hrecs, List.filter_append]
      by_cases hk : (r.student_id == sid' && r.class_session_id == cid') = true
      · simp only [Bool.and_eq_true, beq_iff_eq] at hk
        have h1 : sid' = sid := by rw [← hk.1, hsid]
        have h2 : cid' = cid := by rw [← hk.2, hcid]
        have : (db.records.filter
            (fun x => x.student_id == sid' && x.class_session_id == cid')) = [] := by
          rw [h1, h2]; exact hfresh
        rw [this]
        simp [hk.1, hk.2]
      · have : ([r].filter (fun x => x.student_id == sid' && x.class_session_id == cid')) = [] := by
          simp only [List.filter, hk]
        rw [this, List.append_nil]
        exact hinv.1 sid' cid'
    · intro x hx
      rw [hrecs] at hx
      rcases List.mem_append.mp hx with hx | hx
      · exact hinv.2 x hx
      · rw [List.mem_singleton.mp hx, hrnow]; rfl
  · constructor
    · intro sid' cid'
      show ((db'.records).filter _).length ≤ 1
      rw [hrecs]
      rw [show setCheckin db.records sid cid now d.computer_id = db.records.map _ from rfl]
      rw [length_filter_key_map db.records _ (setCheckin_key_inv sid cid now d.computer_id)]
      exact hinv.1 sid' cid'
    · intro x hx
      rw [hrecs] at hx
      rcases List.mem_map.mp hx with ⟨y, hy, hxy⟩
      by_cases hk : (y.student_id == sid && y.class_session_id == cid) = true
      · rw [← hxy, if_pos hk]; rfl
      · rw [← hxy, if_neg hk]; exact hinv.2 y hy

/-- A successful `checkout_student` preserves the record-table invariant. -/
theorem recInv_checkout_ok {db : DB} {d : AttendanceCheckout} {now : Nat}
    {r : AttendanceRecord} {db' : DB} (hinv : RecInv db)
    (h : checkout_student db d now = .ok (r, db')) : RecInv db' := by
  obtain ⟨-, -, -, -, sid, cid, hrecs⟩ := checkout_student_ok_inv h
  constructor
  · intro sid' cid'
    show ((db'.records).filter _).length ≤ 1
    rw [hrecs]
    rw [show setCheckout db.records sid cid now = db.records.map _ from rfl]
    rw [length_filter_key_map db.records _ (setCheckout_key_inv sid cid now)]
    exact hinv.1 sid' cid'
  · intro x hx
    rw [hrecs] at hx
    rcases List.mem_map.mp hx with ⟨y, hy, hxy⟩
    by_cases hk : (y.student_id == sid && y.class_session_id == cid) = true
    · rw [← hxy, if_pos hk]
      show y.checkin_time.isSome = true
      exact hinv.2 y hy
    · rw [← hxy, if_neg hk]; exact hinv.2 y hy

/-- Every engine operation preserves the record-table invariant. -/
theorem recInv_applyOp (db : DB) (op : Op) (hinv : RecInv db) :
    RecInv (applyOp db op) := by
  cases op with
  | checkin d now =>
    show RecInv (match checkin_student db d now with
      | .ok (_, db') => db' | .error _ => db)
    cases hc : checkin_student db d now with
    | ok p =>
      obtain ⟨r, db'⟩ := p
      exact recInv_checkin_ok hinv hc
    | error e => exact hinv
  | checkout d now =>
    show RecInv (match checkout_student db d now with
      | .ok (_, db') => db' | .error _ => db)
    cases hc : checkout_student db d now with
    | ok p =>
      obtain ⟨r, db'⟩ := p
      exact recInv_checkout_ok hinv hc
    | error e => exact hinv
  | tap d now =>
    show RecInv (simulate_tap db d now).2
    rcases simulate_tap_state_inv db d now with hsame | ⟨r, hc⟩ | ⟨r, hc⟩
    · rw [hsame]; exact hinv
    · exact recInv_checkin_ok hinv hc
    · exact recInv_checkout_ok hinv hc

theorem recInv_run (db : DB) (hinv : RecInv db) (ops : List Op) :
    RecInv (run db ops) := by
  induction ops generalizing db with
  | nil => exact hinv
  | cons op ops ih => exact ih (applyOp db op) (recInv_applyOp db op hinv)

theorem length_filter_and_le {α : Type} (p q : α → Bool) (l : List α) :
    (l.filter (fun a => p a && q a)).length ≤ (l.filter p).length := by
  induction l with
  | nil => simp
  | cons a l ih =>
    cases hp : p a <;> cases hq : q a <;> simp only [List.filter_cons, hp, hq] <;>
      simp <;>
      first
        | exact ih
        | exact Nat.succ_le_succ ih
        | exact Nat.le_trans ih (Nat.le_succ _)

/-! ### Claim theorems -/

/-- C7: starting from an empty record table, every sequence of engine
operations (check-in, check-out, scan handling) leaves at most one
`AttendanceRecord` per (student, class_session) key, at most one open
record (check-in set, check-out unset) per key, and no record with a
check-out but no check-in. -/
theorem engine_records_invariant (students : List Student)
    (schedules : List Schedule) (sessions : List ClassSession) (ops : List Op) :
    (∀ sid cid,
      (recordsFor (run ⟨students, schedules, sessions, []⟩ ops) sid cid).length ≤ 1) ∧
    (∀ sid cid,
      ((run ⟨students, schedules, sessions, []⟩ ops).records.filter
        (fun r => (r.student_id == sid && r.class_session_id == cid) &&
                  (r.checkin_time.isSome && r.checkout_time.isNone))).length ≤ 1) ∧
    (∀ r ∈ (run ⟨students, schedules, sessions, []⟩ ops).records,
      r.checkout_time.isSome = true → r.checkin_time.isSome = true) := by
  have hinv : RecInv (run ⟨students, schedules, sessions, []⟩ ops) := by
    apply recInv_run
    constructor
    · intro sid cid; simp [recordsFor]
    · intro r hr; simp at hr
  refine ⟨hinv.1, ?_, ?_⟩
  · intro sid cid
    exact Nat.le_trans (length_filter_and_le _ _ _) (hinv.1 sid cid)
  · intro r hr _
    exact hinv.2 r hr

/-- C3 counterexample: with the last accepted scan being tag `"AA11"` at
tick 0, a scan of the *different* tag `"BB22"` at tick 1000 is suppressed
(the claim requires a different tag on the same device to be accepted),
and a scan of the *same* tag at tick 3000 — after the claimed 2-second
cooldown has elapsed — is also suppressed. -/
theorem check_rfid_dedup_counterexample :
    (check_rfid ⟨"AA11", 0⟩ 1000 (some "BB22")).1 = false ∧
    (check_rfid ⟨"AA11", 0⟩ 3000 (some "AA11")).1 = false := by
  constructor <;> rfl

/-- C3 (amended): the device-side deduplicator is keyed per device on the
last *accepted* scan only.  A scan of tag `uid` is accepted iff at least
2000 ms have passed since the last accepted scan (whatever its tag) and,
when `uid` equals the last accepted tag, at least 5000 ms have passed;
a suppressed scan leaves the deduplication state unchanged, an accepted
scan records `uid` and the current tick. -/
theorem check_rfid_dedup_amended (st : RFIDReaderState) (now : Int) (uid : String) :
    ((check_rfid st now (some uid)).1 =
      (decide (2000 ≤ now - st.last_rfid_time) &&
        (!(uid == st.last_uid) || decide (5000 ≤ now - st.last_rfid_time)))) ∧
    ((check_rfid st now (some uid)).1 = false →
      (check_rfid st now (some uid)).2 = st) ∧
    ((check_rfid st now (some uid)).1 = true →
      (check_rfid st now (some uid)).2 = ⟨uid, now⟩) := by
  unfold check_rfid
  by_cases h1 : now - st.last_rfid_time < 2000
  · rw [if_pos h1]
    have hd : decide (2000 ≤ now - st.last_rfid_time) = false := by
      simp only [decide_eq_false_iff_not]; omega
    refine ⟨by rw [hd]; rfl, fun _ => rfl, fun h => by simp at h⟩
  · rw [if_neg h1]
    dsimp only
    have hd : decide (2000 ≤ now - st.last_rfid_time) = true := by
      simp only [decide_eq_true_eq]; omega
    by_cases h2 : (uid == st.last_uid && now - st.last_rfid_time < 5000 : Bool) = true
    · simp only [Bool.and_eq_true, decide_eq_true_eq] at h2
      rw [if_pos (by simp only [Bool.and_eq_true, decide_eq_true_eq]; exact h2)]
      have hd5 : decide (5000 ≤ now - st.last_rfid_time) = false := by
        simp only [decide_eq_false_iff_not]; omega
      refine ⟨?_, fun _ => rfl, fun h => by simp at h⟩
      rw [hd, hd5, h2.1]
      rfl
    · rw [if_neg h2]
      simp only [Bool.and_eq_true, not_and, Bool.not_eq_true, decide_eq_true_eq] at h2
      refine ⟨?_, fun h => by simp at h, fun _ => rfl⟩
      rw [hd]
      by_cases he : (uid == st.last_uid) = true
      · have h5 : 5000 ≤ now - st.last_rfid_time := by
          have := h2 he
          omega
        have hd5 : decide (5000 ≤ now - st.last_rfid_time) = true := by
          simp only [decide_eq_true_eq]; exact h5
        rw [he, hd5]
        rfl
      · rw [Bool.not_eq_true] at he
        rw [he]
        rfl

/-- C1: a scan for a student who is Present in the resolved session (an
`AttendanceRecord` with check-in set and check-out unset) is handled as an
implicit check-out: `simulate_tap` reports success with the checked-out
message — the `AlreadyCheckedIn` error is swallowed, not surfaced — and
the stored record's `checkout_time` is set to the scan time. -/
theorem scan_present_checks_out (db : DB) (tag : String) (stu : Student)
    (sess : ClassSession) (r0 : AttendanceRecord) (now t0 strength : Nat)
    (hfind : get_student_by_rfid db tag = some stu)
    (hact : activeSessions db = [sess])
    (hrec : recordsFor db stu.id sess.id = [r0])
    (hin : r0.checkin_time = some t0)
    (hout : r0.checkout_time = none)
    (hstr : 5 ≤ strength) :
    (simulate_tap db ⟨tag, true, strength⟩ now).1.success = true ∧
    (simulate_tap db ⟨tag, true, strength⟩ now).1.message
      = "Student checked out successfully" ∧
    recordsFor (simulate_tap db ⟨tag, true, strength⟩ now).2 stu.id sess.id
      = [{ r0 with checkout_time := some now }] := by
  have hchk := checkin_student_already db tag stu sess r0 now t0 none hfind hact hrec hin
  have hcot := checkout_student_found db tag stu sess r0 now hfind hact hrec
  have hsub : containsSub "Student already checked in" "already checked in" = true := by
    decide
  have hstr2 : ¬ (strength < 5) := by omega
  simp only [simulate_tap, Bool.not_true, Bool.false_eq_true, if_false, hstr2, if_neg,
    hchk, hsub, if_true, hcot]
  exact ⟨trivial, trivial, recordsFor_setCheckout_singleton db stu.id sess.id now r0 hrec⟩

/-- Concrete database for the C1 witness: one student with tag
`"RFID001"`, one active session, and one open attendance record
(checked in at minute 480, not yet checked out). -/
def dbPresent : DB :=
  { students := [⟨1, "RFID001"⟩]
    schedules := [⟨1, 1, 0, 480, 600⟩]
    sessions := [⟨1, 1, "active"⟩]
    records := [⟨1, 1, some 480, none, .present, false, 0, none⟩] }

theorem scan_present_checks_out_witness :
    (simulate_tap dbPresent ⟨"RFID001", true, 8⟩ 500).1.success = true ∧
    (simulate_tap dbPresent ⟨"RFID001", true, 8⟩ 500).1.message
      = "Student checked out successfully" ∧
    recordsFor (simulate_tap dbPresent ⟨"RFID001", true, 8⟩ 500).2 1 1
      = [⟨1, 1, some 480, some 500, .present, false, 0, none⟩] :=
  scan_present_checks_out dbPresent "RFID001" ⟨1, "RFID001"⟩ ⟨1, 1, "active"⟩
    ⟨1, 1, some 480, none, .present, false, 0, none⟩ 500 480 8
    (by decide) (by decide) (by decide) rfl rfl (by omega)

/-- C10: a tap with the proximity flag cleared or a tap strength below 5
fails at the simulation gates: the result is a structured failure carrying
one of the two gate messages, and the database — in particular the
attendance record table — is left untouched (check-in/check-out never
run). -/
theorem weak_tap_no_effect (db : DB) (d : RFIDSimulation) (now : Nat)
    (h : d.proximity_detected = false ∨ d.tap_strength < 5) :
    (simulate_tap db d now).1.success = false ∧
    ((simulate_tap db d now).1.message = "Proximity sensor did not detect presence" ∨
     (simulate_tap db d now).1.message = "Tap strength too weak, please tap firmly") ∧
    (simulate_tap db d now).2 = db := by
  rcases h with h | h
  · simp only [simulate_tap, h, Bool.not_false, if_true]
    exact ⟨trivial, Or.inl trivial, trivial⟩
  · by_cases hp : d.proximity_detected = false
    · simp only [simulate_tap, hp, Bool.not_false, if_true]
      exact ⟨trivial, Or.inl trivial, trivial⟩
    · rw [Bool.not_eq_false] at hp
      simp only [simulate_tap, hp, Bool.not_true, Bool.false_eq_true, if_false, h, if_true]
      exact ⟨trivial, Or.inr trivial, trivial⟩

theorem weak_tap_no_effect_witness :
    (simulate_tap dbPresent ⟨"RFID001", true, 3⟩ 500).1.success = false ∧
    ((simulate_tap dbPresent ⟨"RFID001", true, 3⟩ 500).1.message
        = "Proximity sensor did not detect presence" ∨
     (simulate_tap dbPresent ⟨"RFID001", true, 3⟩ 500).1.message
        = "Tap strength too weak, please tap firmly") ∧
    (simulate_tap dbPresent ⟨"RFID001", true, 3⟩ 500).2 = dbPresent :=
  weak_tap_no_effect dbPresent ⟨"RFID001", true, 3⟩ 500 (Or.inr (by decide))

theorem recordsFor_append (db : DB) (l2 : List AttendanceRecord) (sid cid : Nat) :
    recordsFor { db with records := db.records ++ l2 } sid cid
      = recordsFor db sid cid
        ++ l2.filter (fun r => r.student_id == sid && r.class_session_id == cid) := by
  show List.filter _ (db.records ++ l2) = _
  rw [List.filter_append]
  rfl

/-- C2 (amended): a scan for a student who is Absent in the resolved
session (no record) is an implicit check-in, creating an open record; but
a scan for a student who is Departed (record with both timestamps set) is
*not* an implicit check-in — the code re-runs the check-out and overwrites
`checkout_time`, reporting checked-out, because the toggle only tests
whether `checkin_time` is set. -/
theorem scan_absent_or_departed (db : DB) (tag : String) (stu : Student)
    (sess : ClassSession) (r0 : AttendanceRecord) (now t1 t2 : Nat)
    (hfind : get_student_by_rfid db tag = some stu)
    (hact : activeSessions db = [sess]) :
    (recordsFor db stu.id sess.id = [] →
      (simulate_tap db ⟨tag, true, 8⟩ now).1.success = true ∧
      (simulate_tap db ⟨tag, true, 8⟩ now).1.message
        = "Student checked in successfully" ∧
      recordsFor (simulate_tap db ⟨tag, true, 8⟩ now).2 stu.id sess.id
        = [⟨stu.id, sess.id, some now, none, .present, false, 0, none⟩]) ∧
    (recordsFor db stu.id sess.id = [r0] → r0.checkin_time = some t1 →
      r0.checkout_time = some t2 →
      (simulate_tap db ⟨tag, true, 8⟩ now).1.success = true ∧
      (simulate_tap db ⟨tag, true, 8⟩ now).1.message
        = "Student checked out successfully" ∧
      recordsFor (simulate_tap db ⟨tag, true, 8⟩ now).2 stu.id sess.id
        = [{ r0 with checkout_time := some now }]) := by
  have h85 : ¬ ((8 : Nat) < 5) := by decide
  constructor
  · intro hrec
    have hchk := checkin_student_fresh db tag stu sess now none hfind hact hrec
    simp only [simulate_tap, Bool.not_true, Bool.false_eq_true, if_false, h85, if_neg, hchk]
    refine ⟨trivial, trivial, ?_⟩
    rw [recordsFor_append, hrec]
    simp
  · intro hrec hin hout
    have hchk := checkin_student_already db tag stu sess r0 now t1 none hfind hact hrec hin
    have hcot := checkout_student_found db tag stu sess r0 now hfind hact hrec
    have hsub : containsSub "Student already checked in" "already checked in" = true := by
      decide
    simp only [simulate_tap, Bool.not_true, Bool.false_eq_true, if_false, h85, if_neg,
      hchk, hsub, if_true, hcot]
    exact ⟨trivial, trivial, recordsFor_setCheckout_singleton db stu.id sess.id now r0 hrec⟩

/-- Concrete database for the C2 witness: one student with tag
`"RFID003"`, one active session, no attendance records (Absent). -/
def dbAbsent : DB :=
  { students := [⟨1, "RFID003"⟩]
    schedules := [⟨1, 1, 0, 480, 600⟩]
    sessions := [⟨1, 1, "active"⟩]
    records := [] }

theorem scan_absent_or_departed_witness :
    (simulate_tap dbAbsent ⟨"RFID003", true, 8⟩ 490).1.success = true ∧
    (simulate_tap dbAbsent ⟨"RFID003", true, 8⟩ 490).1.message
      = "Student checked in successfully" ∧
    recordsFor (simulate_tap dbAbsent ⟨"RFID003", true, 8⟩ 490).2 1 1
      = [⟨1, 1, some 490, none, .present, false, 0, none⟩] :=
  (scan_absent_or_departed dbAbsent "RFID003" ⟨1, "RFID003"⟩ ⟨1, 1, "active"⟩
    ⟨1, 1, none, none, .present, false, 0, none⟩ 490 0 0
    (by decide) (by decide)).1 (by decide)

/-- Concrete database for the C2 counterexample: the student of tag
`"RFID002"` is Departed — the only record has check-in 490 and check-out
550. -/
def dbDeparted : DB :=
  { students := [⟨1, "RFID002"⟩]
    schedules := [⟨1, 1, 0, 480, 600⟩]
    sessions := [⟨1, 1, "active"⟩]
    records := [⟨1, 1, some 490, some 550, .present, false, 0, none⟩] }

/-- C2 counterexample: scanning the Departed student's tag at minute 560
reports a check-out (overwriting `checkout_time` to 560), not the implicit
check-in with a fresh open record that the claim requires. -/
theorem scan_departed_counterexample :
    (simulate_tap dbDeparted ⟨"RFID002", true, 8⟩ 560).1.message
      = "Student checked out successfully" ∧
    recordsFor (simulate_tap dbDeparted ⟨"RFID002", true, 8⟩ 560).2 1 1
      = [⟨1, 1, some 490, some 560, .present, false, 0, none⟩] := by
  constructor <;> rfl

/-- Concrete database for C4: schedule starting at minute 480 (08:00),
one active session for it, student not yet checked in. -/
def dbLate : DB :=
  { students := [⟨1, "RFID001"⟩]
    schedules := [⟨1, 1, 0, 480, 600⟩]
    sessions := [⟨1, 1, "active"⟩]
    records := [] }

/-- C4 (code bug): a check-in at minute 500 (08:20) against the schedule
starting at minute 480 (08:00) with no grace period produces a record with
`is_late = false`, `minutes_late = 0` and `status = present` — the source
never computes lateness (`checkin_student` holds only a TODO comment), so
the claimed `isLate=true, minutesLate=20, status=Late` outcome never
occurs.  The second conjunct pins down that the scan really is 20 minutes
past every schedule start in the database. -/
theorem checkin_lateness_defaults :
    checkin_student dbLate ⟨"RFID001", none, none⟩ 500
      = .ok (⟨1, 1, some 500, none, .present, false, 0, none⟩,
             { dbLate with records := [⟨1, 1, some 500, none, .present, false, 0, none⟩] }) ∧
    (∀ sch ∈ dbLate.schedules, 500 - sch.start_time = 20) := by
  constructor
  · rfl
  · decide

/-- C5 (amended): with no explicit session id, the target session is the
unique `ClassSession` whose `status` column is `"active"`, independent of
the schedule table (and hence of any classroom, day-of-week or time-of-day
matching); no active session yields
`ValueError("No active class session found")`, and several active
sessions raise `MultipleResultsFound`. -/
theorem resolve_session_ignores_schedule (db : DB) (scheds : List Schedule) :
    resolveSessionId { db with schedules := scheds } none = resolveSessionId db none ∧
    resolveSessionId db none =
      (match activeSessions db with
       | [] => .error (.valueError "No active class session found")
       | [s] => .ok s.id
       | _ :: _ :: _ => .error .multipleResultsFound) := by
  constructor
  · rfl
  · unfold resolveSessionId
    rcases hl : activeSessions db with - | ⟨a, - | ⟨b, l⟩⟩ <;>
      simp [scalar_one_or_none]

/-- Concrete database for the C5 counterexample: the only schedule runs
08:00–10:00 (minutes 480–600) in classroom 7, yet its session row is
marked active. -/
def dbWrongTime : DB :=
  { students := [⟨1, "TAG5"⟩]
    schedules := [⟨1, 7, 0, 480, 600⟩]
    sessions := [⟨3, 1, "active"⟩]
    records := [] }

/-- C5 counterexample: a check-in at minute 2000 — outside every
schedule's [start, end] window — still selects session 3 and succeeds,
where the claim requires `NoActiveSession` because no schedule's
time-of-day window contains the scan time. -/
theorem session_resolution_counterexample :
    (∀ sch ∈ dbWrongTime.schedules, ¬(sch.start_time ≤ 2000 ∧ 2000 ≤ sch.end_time)) ∧
    checkin_student dbWrongTime ⟨"TAG5", none, none⟩ 2000
      = .ok (⟨1, 3, some 2000, none, .present, false, 0, none⟩,
             { dbWrongTime with
                records := [⟨1, 3, some 2000, none, .present, false, 0, none⟩] }) := by
  constructor
  · decide
  · rfl

/-- C6 (amended): a check-out against a record whose `checkout_time` is
already set is *not* rejected: it succeeds and silently overwrites
`checkout_time` with the new scan time, leaving `checkin_time` and
`status` unchanged (there is no `AlreadyCheckedOut` rejection in the
code). -/
theorem checkout_after_checkout_overwrites (db : DB) (tag : String)
    (stu : Student) (sess : ClassSession) (r0 : AttendanceRecord) (now t2 : Nat)
    (hfind : get_student_by_rfid db tag = some stu)
    (hact : activeSessions db = [sess])
    (hrec : recordsFor db stu.id sess.id = [r0])
    (hout : r0.checkout_time = some t2) :
    checkout_student db ⟨tag, none⟩ now
      = .ok ({ r0 with checkout_time := some now },
             { db with records := setCheckout db.records stu.id sess.id now }) ∧
    recordsFor { db with records := setCheckout db.records stu.id sess.id now }
        stu.id sess.id
      = [{ r0 with checkout_time := some now }] :=
  ⟨checkout_student_found db tag stu sess r0 now hfind hact hrec,
   recordsFor_setCheckout_singleton db stu.id sess.id now r0 hrec⟩

/-- Concrete database for C6: the single record is already checked out at
minute 100 (checked in at minute 10). -/
def dbDone : DB :=
  { students := [⟨1, "T6"⟩]
    schedules := []
    sessions := [⟨1, 1, "active"⟩]
    records := [⟨1, 1, some 10, some 100, .present, false, 0, none⟩] }

theorem checkout_after_checkout_overwrites_witness :
    checkout_student dbDone ⟨"T6", none⟩ 200
      = .ok (⟨1, 1, some 10, some 200, .present, false, 0, none⟩,
             { dbDone with records := setCheckout dbDone.records 1 1 200 }) ∧
    recordsFor { dbDone with records := setCheckout dbDone.records 1 1 200 } 1 1
      = [⟨1, 1, some 10, some 200, .present, false, 0, none⟩] :=
  checkout_after_checkout_overwrites dbDone "T6" ⟨1, "T6"⟩ ⟨1, 1, "active"⟩
    ⟨1, 1, some 10, some 100, .present, false, 0, none⟩ 200 100
    (by decide) (by decide) (by decide) rfl

/-- C6 counterexample: a re-tap at minute 200 against the record already
checked out at minute 100 succeeds and stores `checkout_time = 200`; the
claim requires an `AlreadyCheckedOut` rejection with the stored times
unchanged. -/
theorem checkout_after_checkout_counterexample :
    checkout_student dbDone ⟨"T6", none⟩ 200
      = .ok (⟨1, 1, some 10, some 200, .present, false, 0, none⟩,
             ⟨[⟨1, "T6"⟩], [], [⟨1, 1, "active"⟩],
              [⟨1, 1, some 10, some 200, .present, false, 0, none⟩]⟩) := by
  rfl

/-- Concrete database for the C8 witness. -/
def dbFresh : DB :=
  { students := [⟨1, "RFID004"⟩]
    schedules := [⟨1, 1, 0, 480, 600⟩]
    sessions := [⟨1, 1, "active"⟩]
    records := [] }

/-- C8: a successful check-in followed by a successful check-out on the
same (student, session) yields a record with both timestamps set whose
`status`, `is_late` and `minutes_late` are exactly the values computed at
check-in time — `checkout_student` only writes `checkout_time`. -/
theorem checkin_checkout_roundtrip (db : DB) (tag : String) (stu : Student)
    (sess : ClassSession) (t1 t2 : Nat)
    (hfind : get_student_by_rfid db tag = some stu)
    (hact : activeSessions db = [sess])
    (hrec : recordsFor db stu.id sess.id = []) :
    ∃ r1 db1 r2 db2,
      checkin_student db ⟨tag, none, none⟩ t1 = .ok (r1, db1) ∧
      checkout_student db1 ⟨tag, none⟩ t2 = .ok (r2, db2) ∧
      r2.checkin_time = some t1 ∧ r2.checkout_time = some t2 ∧
      r2.status = r1.status ∧ r2.is_late = r1.is_late ∧
      r2.minutes_late = r1.minutes_late ∧
      recordsFor db2 stu.id sess.id = [r2] := by
  have hchk := checkin_student_fresh db tag stu sess t1 none hfind hact hrec
  have hrec1 : recordsFor
      { db with records :=
          db.records ++ [⟨stu.id, sess.id, some t1, none, .present, false, 0, none⟩] }
      stu.id sess.id
      = [⟨stu.id, sess.id, some t1, none, .present, false, 0, none⟩] := by
    rw [recordsFor_append, hrec]
    simp
  have hcot := checkout_student_found
    { db with records :=
        db.records ++ [⟨stu.id, sess.id, some t1, none, .present, false, 0, none⟩] }
    tag stu sess ⟨stu.id, sess.id, some t1, none, .present, false, 0, none⟩ t2
    hfind hact hrec1
  exact ⟨_, _, _, _, hchk, hcot, rfl, rfl, rfl, rfl, rfl,
    recordsFor_setCheckout_singleton _ stu.id sess.id t2 _ hrec1⟩

theorem checkin_checkout_roundtrip_witness :
    ∃ r1 db1 r2 db2,
      checkin_student dbFresh ⟨"RFID004", none, none⟩ 485 = .ok (r1, db1) ∧
      checkout_student db1 ⟨"RFID004", none⟩ 590 = .ok (r2, db2) ∧
      r2.checkin_time = some 485 ∧ r2.checkout_time = some 590 ∧
      r2.status = r1.status ∧ r2.is_late = r1.is_late ∧
      r2.minutes_late = r1.minutes_late ∧
      recordsFor db2 1 1 = [r2] :=
  checkin_checkout_roundtrip dbFresh "RFID004" ⟨1, "RFID004"⟩ ⟨1, 1, "active"⟩
    485 590 (by decide) (by decide) (by decide)

/-- C9: `simulate_tap` returns a structured result on every path: the
timestamp always reflects the processing time, a success carries one of
the two success messages, and every failure — including the
`MultipleResultsFound` exception wrapped by the outer handler — carries
one of the six failure messages; no exception escapes to the caller. -/
theorem simulate_tap_structured (db : DB) (d : RFIDSimulation) (now : Nat) :
    (simulate_tap db d now).1.timestamp = now ∧
    ((simulate_tap db d now).1.success = true →
      (simulate_tap db d now).1.message = "Student checked in successfully" ∨
      (simulate_tap db d now).1.message = "Student checked out successfully") ∧
    ((simulate_tap db d now).1.success = false →
      (simulate_tap db d now).1.message ∈
        ["Proximity sensor did not detect presence",
         "Tap strength too weak, please tap firmly",
         "Student not found with this RFID card",
         "No active class session found",
         "No check-in record found for this student",
         "RFID processing error: Multiple rows were found when exactly one or none was required"]) := by
  unfold simulate_tap
  split
  · exact ⟨rfl, fun h => by simp at h, fun _ => by simp⟩
  split
  · exact ⟨rfl, fun h => by simp at h, fun _ => by simp⟩
  split
  · next record db2 heq =>
    refine ⟨?_, fun _ => Or.inl rfl, fun h => by simp at h⟩
    have hr := (checkin_student_ok_inv heq).2.2.2.1
    simp [hr]
  · next msg heq =>
    split
    · next hsub =>
      split
      · next record db2 heq2 =>
        refine ⟨?_, fun _ => Or.inr rfl, fun h => by simp at h⟩
        have hr := (checkout_student_ok_inv heq2).2.2.2.1
        simp [hr]
      · next m2 heq2 =>
        refine ⟨rfl, fun h => by simp at h, fun _ => ?_⟩
        rcases checkout_student_error_cases heq2 with h2 | h2 | h2 | h2 <;>
          first
            | (injection h2 with h3; rw [h3]; simp)
            | (exact absurd h2 (by simp))
      · next heq2 =>
        refine ⟨rfl, fun h => by simp at h, fun _ => ?_⟩
        show ("RFID processing error: " ++ pyErrorStr PyError.multipleResultsFound) ∈ _
        decide
    · next hsub =>
      refine ⟨rfl, fun h => by simp at h, fun _ => ?_⟩
      rcases checkin_student_error_cases heq with h2 | h2 | h2 | h2
      · injection h2 with h3; rw [h3]; simp
      · injection h2 with h3; rw [h3]; simp
      · injection h2 with h3
        rw [h3] at hsub
        exact absurd (by decide) hsub
      · exact absurd h2 (by simp)
  · refine ⟨rfl, fun h => by simp at h, fun _ => ?_⟩
    show ("RFID processing error: " ++ pyErrorStr PyError.multipleResultsFound) ∈ _
    decide

end Presence
